import Mathlib

/-!
Verification of `tristar.py` (TriStar Fitness development-environment
supervisor).  The Python source is shallowly embedded: each method of
`TriStarApp` that the claims mention becomes a Lean function over explicit
state, with the external world (filesystem, child processes, the HTTP
health endpoint, the package manager) supplied as an oracle.  Observable
side effects (install commands, process spawns, kill signals) are recorded
as explicit event traces.
-/

namespace TriStarFitness

/-! ## Health prober: `TriStarApp.wait_for_server` (tristar.py lines 118-133)

```
start_time = time.time()
while time.time() - start_time < timeout:
    try:
        urlopen(url)
        return True
    except URLError:
        sleep(1)
        ...
return False
```

One probe attempt is a call to `urllib.request.urlopen(url)`.  Its outcome is
one of:
 * `success`  — `urlopen` returns a response object.  Per the `urllib` docs
   this happens only for a final 2xx status (after transparent redirect
   handling); for any other status `urlopen` raises `HTTPError`.
 * `httpError s` — the endpoint answered with a non-2xx status `s`:
   `urlopen` raises `urllib.error.HTTPError`, which is a subclass of
   `urllib.error.URLError`, so the `except URLError` branch catches it.
 * `connError` — a connection-level failure: `urlopen` raises `URLError`,
   caught by the same branch.

Time is counted in whole polling intervals: a failed attempt costs the one
`sleep(1)` second (connection attempts themselves are modelled as
instantaneous), so the attempt at index `n` happens at elapsed time `n`
seconds.  The loop guard `time.time() - start_time < timeout` becomes the
fuel `timeout - n`. -/

/-- Outcome of one `urlopen` call against the health URL. -/
inductive Attempt
  | success
  | httpError (status : Nat)
  | connError
deriving DecidableEq

/-- Whether this `urlopen` outcome raises an exception that the
`except URLError` handler catches (`HTTPError` is a `URLError` subclass). -/
def attemptCaught : Attempt → Bool
  | Attempt.success => false
  | Attempt.httpError _ => true
  | Attempt.connError => true

/-- The `while time.time() - start_time < timeout` loop of
`wait_for_server`.  `att n` is the outcome of the probe made at elapsed
time `n`; the fuel equals `timeout - n`, so fuel `0` is exactly the loop
guard failing.  Returns (result, elapsed seconds at return). -/
def waitLoop (att : Nat → Attempt) : Nat → Nat → Bool × Nat
  | 0, n => (false, n)
  | fuel + 1, n =>
    if attemptCaught (att n) then waitLoop att fuel (n + 1)
    else (true, n)

/-- `TriStarApp.wait_for_server(url, timeout)`: poll once per second until
`urlopen` returns, or the timeout elapses.  Returns (result, elapsed). -/
def wait_for_server (att : Nat → Attempt) (timeout : Nat) : Bool × Nat :=
  waitLoop att timeout 0

/-! ## Process handles and the shutdown coordinator: `TriStarApp.cleanup`
(tristar.py lines 170-192)

```
try:
    if self.backend_process:
        if sys.platform == "win32":
            subprocess.run([taskkill, /F, /T, /PID, str(self.backend_process.pid)],
                        check=True, capture_output=True)
        else:
            self.backend_process.terminate()
            self.backend_process.wait(timeout=5)
    if self.frontend_process:
        ... same for frontend ...
    print("Servers stopped successfully!")
except Exception as e:
    print(f"Error during cleanup: ...")
```

`subprocess.Popen` semantics modelled:
 * `terminate()` = `send_signal(SIGTERM)`: it first polls; if the cached
   `returncode` is already set (or polling finds the child exited and reaps
   it) no signal is sent; only a child still running receives SIGTERM.
 * `wait(timeout=5)`: returns immediately for an exited child (setting
   `returncode`); if the child is still running after SIGTERM, it returns
   within the 5 s window exactly when the child exits on SIGTERM
   (`exitsOnTerm`), recording `returncode = -15` (negative signal number);
   otherwise it raises `subprocess.TimeoutExpired`.
 * on win32, `taskkill /F /T /PID pid` is always executed; with `check=True`
   it raises `subprocess.CalledProcessError` when the pid no longer exists
   (the `taskkill` run is still an issued kill attempt).

The single `try` around both branches means any exception ends the pass;
the `except` catches and logs it, so `cleanup` itself never raises.  Kill
attempts actually delivered to the OS are recorded as events. -/

/-- OS-level state of a child process. -/
inductive ProcState
  | running
  | exited (code : Int)
deriving DecidableEq

/-- A `subprocess.Popen` handle as `cleanup` sees it: the pid, the true OS
state of the child, the cached `returncode` of the handle, and whether the child
would exit within the 5-second grace window after receiving SIGTERM. -/
structure ProcHandle where
  pid : Nat
  os : ProcState
  returncode : Option Int
  exitsOnTerm : Bool
deriving DecidableEq

/-- The two services the launcher manages. -/
inductive Service
  | backend
  | frontend
deriving DecidableEq

/-- Observable side effects of the embedded program. -/
inductive Ev
  | sigterm (pid : Nat)
  | sigkill (pid : Nat)
  | taskkillF (pid : Nat)
  | install (svc : Service)
  | spawn (svc : Service)
  | probe (svc : Service)
  | openBrowser
deriving DecidableEq

/-- Exceptions that can arise inside the `try` block of `cleanup`. -/
inductive CleanupError
  | timeoutExpired (pid : Nat)
  | calledProcessError (pid : Nat)
deriving DecidableEq

/-- Kill-type events (signals and `taskkill` runs). -/
def isKillEv : Ev → Bool
  | Ev.sigterm _ => true
  | Ev.sigkill _ => true
  | Ev.taskkillF _ => true
  | _ => false

/-- Shutdown of one tracked process inside `cleanup`: the win32 branch runs
`taskkill /F /T /PID pid` with `check=True`; the POSIX branch runs
`p.terminate()` then `p.wait(timeout=5)`.  Returns (events, updated handle,
exception raised if any). -/
def cleanupProc (win32 : Bool) (p : ProcHandle) :
    List Ev × ProcHandle × Option CleanupError :=
  if win32 then
    match p.os with
    | ProcState.running =>
      ([Ev.taskkillF p.pid], { p with os := ProcState.exited 1 }, none)
    | ProcState.exited _ =>
      ([Ev.taskkillF p.pid], p, some (CleanupError.calledProcessError p.pid))
  else
    match p.returncode with
    | some _ => ([], p, none)
    | none =>
      match p.os with
      | ProcState.exited c => ([], { p with returncode := some c }, none)
      | ProcState.running =>
        if p.exitsOnTerm then
          ([Ev.sigterm p.pid],
           { p with os := ProcState.exited (-15), returncode := some (-15) }, none)
        else
          ([Ev.sigterm p.pid], p, some (CleanupError.timeoutExpired p.pid))

/-- The mutable fields of `TriStarApp` the claims are about. -/
structure AppSt where
  backend_process : Option ProcHandle
  frontend_process : Option ProcHandle
deriving DecidableEq

/-- `TriStarApp.cleanup`: backend first, then frontend, inside one `try`;
an exception raised while handling the backend skips the frontend and is
caught by the `except` clause.  Returns (events, updated state, the caught
exception — `none` means the success message was printed). -/
def cleanup (win32 : Bool) (s : AppSt) : List Ev × AppSt × Option CleanupError :=
  match s.backend_process with
  | none =>
    match s.frontend_process with
    | none => ([], s, none)
    | some q =>
      match cleanupProc win32 q with
      | (ev2, q', e2) => (ev2, ⟨none, some q'⟩, e2)
  | some p =>
    match cleanupProc win32 p with
    | (ev, p', some e) => (ev, ⟨some p', s.frontend_process⟩, some e)
    | (ev, p', none) =>
      match s.frontend_process with
      | none => (ev, ⟨some p', none⟩, none)
      | some q =>
        match cleanupProc win32 q with
        | (ev2, q', e2) => (ev ++ ev2, ⟨some p', some q'⟩, e2)

/-- A process that has exited at the OS level. -/
def procExited (p : ProcHandle) : Bool :=
  match p.os with
  | ProcState.exited _ => true
  | ProcState.running => false

/-- Every tracked process of the state has exited. -/
def allStopped (s : AppSt) : Bool :=
  (match s.backend_process with
   | none => true
   | some p => procExited p) &&
  (match s.frontend_process with
   | none => true
   | some q => procExited q)

/-- Well-formedness of a handle: a cached `returncode` can only come from a
child that really exited with that code. -/
def wfProc (p : ProcHandle) : Prop :=
  ∀ c, p.returncode = some c → p.os = ProcState.exited c

/-- Well-formedness of the app state. -/
def wfSt (s : AppSt) : Prop :=
  (∀ p, s.backend_process = some p → wfProc p) ∧
  (∀ q, s.frontend_process = some q → wfProc q)

/-! ## Service launcher and supervisor: `start_backend`, `start_frontend`,
`run` (tristar.py lines 135-168 and 194-256)

The external world is an oracle `Env`: the result of the `npm`/`node`
checks, whether `backend/package.json` exists, the exit status of the two
`npm install` runs, the probe outcomes of the two health endpoints, the
platform, and the behavior of the two spawned child processes. -/

/-- The environment a run of `TriStarApp` interacts with. -/
structure Env where
  /-- `check_dependencies()` succeeds (npm and node found). -/
  depsOk : Bool
  /-- `os.path.exists(backend_dir/package.json)`. -/
  backendManifest : Bool
  /-- the `npm install` run in `backend_dir` exits successfully. -/
  backendInstall : Bool
  /-- the `npm install` run in `project_dir` exits successfully. -/
  frontendInstall : Bool
  /-- probe outcomes for the backend health URL, port 6868. -/
  backendAtt : Nat → Attempt
  /-- probe outcomes for the frontend URL, port 3000. -/
  frontendAtt : Nat → Attempt
  /-- `sys.platform == "win32"`. -/
  win32 : Bool
  /-- pid of the spawned `node server.js` child. -/
  backendPid : Nat
  /-- pid of the spawned `npm run dev` child. -/
  frontendPid : Nat
  /-- the backend child exits within 5 s of SIGTERM. -/
  backendExitsOnTerm : Bool
  /-- the frontend child exits within 5 s of SIGTERM. -/
  frontendExitsOnTerm : Bool

/-- The handle `run_command(node server.js, cwd=backend_dir)` returns:
a freshly spawned child is running and unreaped. -/
def spawnBackend (env : Env) : ProcHandle :=
  ⟨env.backendPid, ProcState.running, none, env.backendExitsOnTerm⟩

/-- The handle `run_command(npm run dev, cwd=project_dir)` returns. -/
def spawnFrontend (env : Env) : ProcHandle :=
  ⟨env.frontendPid, ProcState.running, none, env.frontendExitsOnTerm⟩

/-- `TriStarApp.start_backend` (lines 135-154): check `package.json`
exists (else return False before any install), run `npm install` (on
failure return False before spawning), spawn `node server.js` storing the
handle in `backend_process`, then health-probe with timeout 15.  Returns
(events, ready flag, updated state). -/
def start_backend (env : Env) (s : AppSt) : List Ev × Bool × AppSt :=
  if env.backendManifest = false then ([], false, s)
  else if env.backendInstall = false then ([Ev.install Service.backend], false, s)
  else
    ([Ev.install Service.backend, Ev.spawn Service.backend, Ev.probe Service.backend],
     (wait_for_server env.backendAtt 15).1,
     { s with backend_process := some (spawnBackend env) })

/-- `TriStarApp.start_frontend` (lines 156-168): run `npm install` in the
project directory (on failure return False before spawning), spawn
`npm run dev` storing the handle in `frontend_process`, then health-probe
with timeout 30.  (The `node_modules` existence test only prints a
message.) -/
def start_frontend (env : Env) (s : AppSt) : List Ev × Bool × AppSt :=
  if env.frontendInstall = false then ([Ev.install Service.frontend], false, s)
  else
    ([Ev.install Service.frontend, Ev.spawn Service.frontend, Ev.probe Service.frontend],
     (wait_for_server env.frontendAtt 30).1,
     { s with frontend_process := some (spawnFrontend env) })

/-- `TriStarApp.run` (lines 194-256): `check_dependencies`, then
`start_backend`; if it reports not-ready, `cleanup` and return.  Otherwise
`start_frontend`; if not-ready, `cleanup` and return.  Otherwise open the
browser and enter the monitor loop — which only polls and sleeps, emitting
no events — until a process dies or an interrupt arrives, after which
`cleanup` runs (the session is assumed to end).  Returns (events, final
state). -/
def runApp (env : Env) : List Ev × AppSt :=
  if env.depsOk = false then ([], ⟨none, none⟩)
  else
    let r1 := start_backend env ⟨none, none⟩
    if r1.2.1 = false then
      let c := cleanup env.win32 r1.2.2
      (r1.1 ++ c.1, c.2.1)
    else
      let r2 := start_frontend env r1.2.2
      if r2.2.1 = false then
        let c := cleanup env.win32 r2.2.2
        (r1.1 ++ r2.1 ++ c.1, c.2.1)
      else
        let c := cleanup env.win32 r2.2.2
        (r1.1 ++ r2.1 ++ [Ev.openBrowser] ++ c.1, c.2.1)

/-! ## Filesystem: `TriStarApp.ensure_directories` (tristar.py lines 89-99)

```
dirs = [os.path.join(self.backend_dir, data),
        os.path.join(self.backend_dir, logs),
        os.path.join(self.backend_dir, exports)]
for d in dirs:
    if not os.path.exists(d):
        os.makedirs(d)
```

Paths are modelled relative to `backend_dir` (all three joins share the
same parent, and the three names are distinct, so distinct names are
distinct filesystem entries).  The filesystem is the list of existing
paths.  `os.makedirs` without `exist_ok` raises `FileExistsError` on an
existing path, which the `if not os.path.exists(d)` guard avoids. -/

/-- The three subdirectory names `ensure_directories` requires, relative to
the backend directory, in the order the loop visits them. -/
def requiredDirs : List String :=
  [(("data") : String), (("logs") : String), (("exports") : String)]

/-- `os.makedirs(d)`: create `d`, or raise `FileExistsError` if present. -/
def makedirs (fs : List String) (d : String) : Except String (List String) :=
  if d ∈ fs then Except.error (("FileExistsError") : String) else Except.ok (d :: fs)

/-- The `for d in dirs` loop body of `ensure_directories`.  Returns the
updated filesystem together with the list of directories actually created
(each creation is also the printed "Created directory" line). -/
def ensureLoop : List String → List String → Except String (List String × List String)
  | fs, [] => Except.ok (fs, [])
  | fs, d :: ds =>
    if d ∈ fs then ensureLoop fs ds
    else
      match makedirs fs d with
      | Except.error e => Except.error e
      | Except.ok fs' =>
        match ensureLoop fs' ds with
        | Except.error e => Except.error e
        | Except.ok (fs2, created) => Except.ok (fs2, d :: created)

/-- `TriStarApp.ensure_directories`, acting on the set of paths that exist
under the backend directory. -/
def ensure_directories (fs : List String) : Except String (List String × List String) :=
  ensureLoop fs requiredDirs

/-! ## Helper lemmas -/

lemma waitLoop_false_elapsed (att : Nat → Attempt) :
    ∀ fuel n, (waitLoop att fuel n).1 = false → (waitLoop att fuel n).2 = n + fuel := by
  intro fuel
  induction fuel with
  | zero => intro n _; simp [waitLoop]
  | succ k ih =>
    intro n h
    by_cases hc : attemptCaught (att n) = true
    · have h' : waitLoop att (k + 1) n = waitLoop att k (n + 1) := by
        simp [waitLoop, hc]
      rw [h'] at h ⊢
      rw [ih (n + 1) h]
      omega
    · simp [waitLoop, hc] at h

lemma waitLoop_all_fail (att : Nat → Attempt) :
    ∀ fuel n, (∀ k, n ≤ k → k < n + fuel → att k ≠ Attempt.success) →
      waitLoop att fuel n = (false, n + fuel) := by
  intro fuel
  induction fuel with
  | zero => intro n _; simp [waitLoop]
  | succ k ih =>
    intro n h
    have hn : att n ≠ Attempt.success := h n (le_refl n) (by omega)
    have hc : attemptCaught (att n) = true := by
      cases hatt : att n with
      | success => exact absurd hatt hn
      | httpError s => simp [attemptCaught]
      | connError => simp [attemptCaught]
    have h' : waitLoop att (k + 1) n = waitLoop att k (n + 1) := by
      simp [waitLoop, hc]
    rw [h', ih (n + 1) (fun j hj1 hj2 => h j (by omega) (by omega))]
    simp [Nat.add_assoc, Nat.add_comm 1 k]

lemma waitLoop_first_success (att : Nat → Attempt) :
    ∀ fuel n k, n ≤ k → k < n + fuel → att k = Attempt.success →
      (∀ j, n ≤ j → j < k → att j ≠ Attempt.success) →
      waitLoop att fuel n = (true, k) := by
  intro fuel
  induction fuel with
  | zero => intro n k h1 h2; omega
  | succ m ih =>
    intro n k h1 h2 hk hbefore
    by_cases heq : n = k
    · subst heq
      have hc : attemptCaught (att n) = false := by
        rw [hk]; simp [attemptCaught]
      simp [waitLoop, hc]
    · have hn : att n ≠ Attempt.success := hbefore n (le_refl n) (by omega)
      have hc : attemptCaught (att n) = true := by
        cases hatt : att n with
        | success => exact absurd hatt hn
        | httpError s => simp [attemptCaught]
        | connError => simp [attemptCaught]
      have h' : waitLoop att (m + 1) n = waitLoop att m (n + 1) := by
        simp [waitLoop, hc]
      rw [h']
      exact ih (n + 1) k (by omega) (by omega) hk
        (fun j hj1 hj2 => hbefore j (by omega) hj2)

lemma wait_for_server_never (att : Nat → Attempt) (T : Nat)
    (h : ∀ k, k < T → att k ≠ Attempt.success) :
    wait_for_server att T = (false, T) := by
  have := waitLoop_all_fail att T 0 (fun k hk1 hk2 => h k (by omega))
  simpa [wait_for_server] using this

lemma wait_for_server_first (att : Nat → Attempt) (T k : Nat)
    (hk : k < T) (hs : att k = Attempt.success)
    (hb : ∀ j, j < k → att j ≠ Attempt.success) :
    wait_for_server att T = (true, k) := by
  have := waitLoop_first_success att T 0 k (by omega) (by omega) hs
    (fun j hj1 hj2 => hb j hj2)
  simpa [wait_for_server] using this

lemma cleanupProc_no_sigkill (w : Bool) (p : ProcHandle) (pid : Nat) :
    Ev.sigkill pid ∉ (cleanupProc w p).1 := by
  unfold cleanupProc
  cases w <;> rcases p with ⟨pp, os, rc, et⟩ <;> cases os <;> cases rc <;>
    simp_all <;> split <;> simp

lemma cleanupProc_kills (w : Bool) (p : ProcHandle) :
    ∀ e ∈ (cleanupProc w p).1, isKillEv e = true := by
  unfold cleanupProc
  cases w <;> rcases p with ⟨pp, os, rc, et⟩ <;> cases os <;> cases rc <;>
    simp_all [isKillEv] <;> split <;> simp [isKillEv]

lemma cleanup_events_split (w : Bool) (s : AppSt) :
    ∀ e ∈ (cleanup w s).1,
      (∃ p, s.backend_process = some p ∧ e ∈ (cleanupProc w p).1) ∨
      (∃ q, s.frontend_process = some q ∧ e ∈ (cleanupProc w q).1) := by
  intro e he
  rcases s with ⟨bp, fp⟩
  cases bp with
  | none =>
    cases fp with
    | none => simp [cleanup] at he
    | some q =>
      rcases hq : cleanupProc w q with ⟨ev2, q', e2⟩
      right
      refine ⟨q, rfl, ?_⟩
      simp [cleanup, hq] at he
      rw [hq]
      simpa using he
  | some p =>
    rcases hp : cleanupProc w p with ⟨ev, p', e1⟩
    cases e1 with
    | some err =>
      left
      refine ⟨p, rfl, ?_⟩
      simp [cleanup, hp] at he
      rw [hp]
      simpa using he
    | none =>
      cases fp with
      | none =>
        left
        refine ⟨p, rfl, ?_⟩
        simp [cleanup, hp] at he
        rw [hp]
        simpa using he
      | some q =>
        rcases hq : cleanupProc w q with ⟨ev2, q', e2⟩
        simp [cleanup, hp, hq] at he
        rcases he with h1 | h2
        · left; exact ⟨p, rfl, by rw [hp]; simpa using h1⟩
        · right; exact ⟨q, rfl, by rw [hq]; simpa using h2⟩

lemma cleanup_kills (w : Bool) (s : AppSt) :
    ∀ e ∈ (cleanup w s).1, isKillEv e = true := by
  intro e he
  rcases cleanup_events_split w s e he with ⟨p, _, hp⟩ | ⟨q, _, hq⟩
  · exact cleanupProc_kills w p e hp
  · exact cleanupProc_kills w q e hq

lemma cleanup_no_sigkill (w : Bool) (s : AppSt) (pid : Nat) :
    Ev.sigkill pid ∉ (cleanup w s).1 := by
  intro hmem
  rcases cleanup_events_split w s _ hmem with ⟨p, _, hp⟩ | ⟨q, _, hq⟩
  · exact cleanupProc_no_sigkill w p pid hp
  · exact cleanupProc_no_sigkill w q pid hq

lemma cleanupProc_posix_exited (p : ProcHandle) (h : procExited p = true) :
    (cleanupProc false p).1 = [] ∧ (cleanupProc false p).2.2 = none := by
  unfold cleanupProc procExited at *
  rcases p with ⟨pp, os, rc, et⟩
  cases os with
  | running => simp at h
  | exited c => cases rc <;> simp

lemma cleanupProc_posix_ok_exited (p : ProcHandle) (hwf : wfProc p)
    (h : (cleanupProc false p).2.2 = none) :
    procExited (cleanupProc false p).2.1 = true := by
  unfold cleanupProc at *
  rcases p with ⟨pp, os, rc, et⟩
  cases rc with
  | some c =>
    have := hwf c rfl
    simp at this
    simp [procExited, this]
  | none =>
    cases os with
    | exited c => simp [procExited]
    | running =>
      by_cases het : et = true
      · simp [het, procExited]
      · simp [eq_false_of_ne_true het] at h

lemma cleanup_backend_events_mem (w : Bool) (s : AppSt) (p : ProcHandle)
    (hb : s.backend_process = some p) :
    ∀ e ∈ (cleanupProc w p).1, e ∈ (cleanup w s).1 := by
  intro e he
  rcases s with ⟨bp, fp⟩
  simp at hb
  subst hb
  rcases hp : cleanupProc w p with ⟨ev, p', e1⟩
  rw [hp] at he
  simp at he
  cases e1 with
  | some err => simp [cleanup, hp]; exact he
  | none =>
    cases fp with
    | none => simp [cleanup, hp]; exact he
    | some q =>
      rcases hq : cleanupProc w q with ⟨ev2, q', e2⟩
      simp [cleanup, hp, hq]
      left
      exact he

lemma start_backend_events (env : Env) (s : AppSt) :
    ∀ e ∈ (start_backend env s).1,
      e = Ev.install Service.backend ∨ e = Ev.spawn Service.backend ∨
      e = Ev.probe Service.backend := by
  intro e he
  unfold start_backend at he
  split at he
  · simp at he
  · split at he <;> simp at he <;> tauto

lemma start_frontend_events (env : Env) (s : AppSt) :
    ∀ e ∈ (start_frontend env s).1,
      e = Ev.install Service.frontend ∨ e = Ev.spawn Service.frontend ∨
      e = Ev.probe Service.frontend := by
  intro e he
  unfold start_frontend at he
  split at he <;> simp at he <;> tauto

lemma start_backend_no_kill (env : Env) (s : AppSt) :
    ∀ e ∈ (start_backend env s).1, isKillEv e = false := by
  intro e he
  rcases start_backend_events env s e he with h | h | h <;> subst h <;> rfl

lemma start_frontend_no_kill (env : Env) (s : AppSt) :
    ∀ e ∈ (start_frontend env s).1, isKillEv e = false := by
  intro e he
  rcases start_frontend_events env s e he with h | h | h <;> subst h <;> rfl

lemma start_backend_ready (env : Env) (s : AppSt)
    (h : (start_backend env s).2.1 = true) :
    (wait_for_server env.backendAtt 15).1 = true := by
  unfold start_backend at h
  split at h
  · simp at h
  · split at h
    · simp at h
    · simpa using h

lemma start_frontend_ready (env : Env) (s : AppSt)
    (h : (start_frontend env s).2.1 = true) :
    (wait_for_server env.frontendAtt 30).1 = true := by
  unfold start_frontend at h
  split at h
  · simp at h
  · simpa using h

lemma start_backend_started (env : Env) (s : AppSt)
    (hm : env.backendManifest = true) (hi : env.backendInstall = true) :
    start_backend env s =
      ([Ev.install Service.backend, Ev.spawn Service.backend, Ev.probe Service.backend],
       (wait_for_server env.backendAtt 15).1,
       { s with backend_process := some (spawnBackend env) }) := by
  unfold start_backend
  simp [hm, hi]

lemma start_frontend_started (env : Env) (s : AppSt)
    (hi : env.frontendInstall = true) :
    start_frontend env s =
      ([Ev.install Service.frontend, Ev.spawn Service.frontend, Ev.probe Service.frontend],
       (wait_for_server env.frontendAtt 30).1,
       { s with frontend_process := some (spawnFrontend env) }) := by
  unfold start_frontend
  simp [hi]

lemma ensureLoop_ok (fs ds : List String) :
    ∃ fs2 created, ensureLoop fs ds = Except.ok (fs2, created) := by
  induction ds generalizing fs with
  | nil => exact ⟨fs, [], rfl⟩
  | cons d ds ih =>
    by_cases hd : d ∈ fs
    · rcases ih fs with ⟨fs2, created, h⟩
      exact ⟨fs2, created, by simp [ensureLoop, hd, h]⟩
    · rcases ih (d :: fs) with ⟨fs2, created, h⟩
      refine ⟨fs2, d :: created, ?_⟩
      simp [ensureLoop, hd, makedirs, h]

lemma ensureLoop_mem (fs ds fs2 created : List String)
    (h : ensureLoop fs ds = Except.ok (fs2, created)) :
    (∀ d, d ∈ ds → d ∈ fs2) ∧ (∀ p, p ∈ fs → p ∈ fs2) ∧
    (∀ d, d ∈ created ↔ (d ∈ ds ∧ d ∉ fs)) := by
  induction ds generalizing fs fs2 created with
  | nil =>
    simp [ensureLoop] at h
    rcases h with ⟨h1, h2⟩
    subst h1; subst h2
    simp
  | cons d ds ih =>
    by_cases hd : d ∈ fs
    · simp [ensureLoop, hd] at h
      rcases ih fs fs2 created h with ⟨ha, hb, hc⟩
      refine ⟨?_, hb, ?_⟩
      · intro x hx
        rcases List.mem_cons.mp hx with h1 | h1
        · subst h1; exact hb x hd
        · exact ha x h1
      · intro x
        rw [hc x]
        constructor
        · rintro ⟨h1, h2⟩; exact ⟨List.mem_cons_of_mem d h1, h2⟩
        · rintro ⟨h1, h2⟩
          rcases List.mem_cons.mp h1 with h3 | h3
          · exact absurd (h3 ▸ hd) h2
          · exact ⟨h3, h2⟩
    · simp [ensureLoop, hd, makedirs] at h
      rcases hrec : ensureLoop (d :: fs) ds with e | ⟨fs2', created'⟩
      · rw [hrec] at h; simp at h
      · rw [hrec] at h
        simp at h
        rcases h with ⟨h1, h2⟩
        subst h1; subst h2
        rcases ih (d :: fs) fs2' created' hrec with ⟨ha, hb, hc⟩
        refine ⟨?_, ?_, ?_⟩
        · intro x hx
          rcases List.mem_cons.mp hx with h1 | h1
          · subst h1; exact hb x (List.mem_cons_self x fs)
          · exact ha x h1
        · intro p hp; exact hb p (List.mem_cons_of_mem d hp)
        · intro x
          constructor
          · intro hx
            rcases List.mem_cons.mp hx with h1 | h1
            · subst h1; exact ⟨List.mem_cons_self x ds, hd⟩
            · rcases (hc x).mp h1 with ⟨h2, h3⟩
              refine ⟨List.mem_cons_of_mem d h2, fun hxf => h3 (List.mem_cons_of_mem d hxf)⟩
          · rintro ⟨h1, h2⟩
            rcases List.mem_cons.mp h1 with h3 | h3
            · subst h3; exact List.mem_cons_self x _
            · by_cases hxd : x = d
              · subst hxd; exact List.mem_cons_self x _
              · refine List.mem_cons_of_mem d ((hc x).mpr ⟨h3, ?_⟩)
                intro hxf
                rcases List.mem_cons.mp hxf with h4 | h4
                · exact hxd h4
                · exact h2 h4

lemma ensureLoop_all_present (fs ds : List String)
    (h : ∀ d, d ∈ ds → d ∈ fs) :
    ensureLoop fs ds = Except.ok (fs, []) := by
  induction ds with
  | nil => rfl
  | cons d ds ih =>
    have hd : d ∈ fs := h d (List.mem_cons_self d ds)
    simp [ensureLoop, hd]
    exact ih (fun x hx => h x (List.mem_cons_of_mem d hx))

/-! ## Claim theorems -/

/-- C3 counterexample: against an endpoint that answers every probe with an
HTTP 500 response, `wait_for_server` with timeout 3 does NOT return success
immediately (the claim would require `(true, 0)`): `urlopen` raises
`HTTPError`, a `URLError` subclass, so the response is caught and retried
until the timeout, and the prober returns `(false, 3)`. -/
theorem c3_counterexample :
    wait_for_server (fun _ => Attempt.httpError 500) 3 = (false, 3) ∧
    wait_for_server (fun _ => Attempt.httpError 500) 3 ≠ (true, 0) := by
  constructor
  · rfl
  · intro h
    exact absurd (rfl.trans h) (by decide)

/-- C3 (amended): a probe attempt on which `urlopen` returns a response —
which happens exactly for a 2xx status — makes the prober return success
immediately; a non-2xx response raises `HTTPError`, which is a subclass of
`URLError`, so like a connection error it is caught, treated as
not-yet-ready, and retried after the 1-second interval; neither kind of
failure raises out of the prober (the loop simply continues at elapsed
time 1). -/
theorem c3_amended_only_2xx_is_reachable :
    (∀ att T, 0 < T → att 0 = Attempt.success →
        wait_for_server att T = (true, 0))
    ∧ (∀ att T s, 0 < T → att 0 = Attempt.httpError s →
        wait_for_server att T = waitLoop att (T - 1) 1)
    ∧ (∀ att T, 0 < T → att 0 = Attempt.connError →
        wait_for_server att T = waitLoop att (T - 1) 1) := by
  refine ⟨?_, ?_, ?_⟩
  · intro att T hT h
    exact wait_for_server_first att T 0 hT h (fun j hj => absurd hj (Nat.not_lt_zero j))
  · intro att T s hT h
    rcases T with _ | T
    · omega
    · show waitLoop att (T + 1) 0 = waitLoop att T 1
      simp [waitLoop, h, attemptCaught]
  · intro att T hT h
    rcases T with _ | T
    · omega
    · show waitLoop att (T + 1) 0 = waitLoop att T 1
      simp [waitLoop, h, attemptCaught]

/-- C3 witness: concrete instances — an immediately-responding (2xx)
endpoint returns success at elapsed 0; a 500-answering endpoint and a
connection-refusing endpoint are both retried from elapsed time 1. -/
theorem c3_witness :
    wait_for_server (fun _ => Attempt.success) 5 = (true, 0) ∧
    wait_for_server (fun _ => Attempt.httpError 500) 3
      = waitLoop (fun _ => Attempt.httpError 500) 2 1 ∧
    wait_for_server (fun _ => Attempt.connError) 3
      = waitLoop (fun _ => Attempt.connError) 2 1 :=
  ⟨c3_amended_only_2xx_is_reachable.1 (fun _ => Attempt.success) 5 (by decide) rfl,
   c3_amended_only_2xx_is_reachable.2.1 (fun _ => Attempt.httpError 500) 3 500 (by decide) rfl,
   c3_amended_only_2xx_is_reachable.2.2 (fun _ => Attempt.connError) 3 (by decide) rfl⟩

/-- C6: against an endpoint that never responds successfully the prober
returns TimedOut (false) at elapsed time exactly in [T, T+1); whenever it
returns TimedOut the elapsed time is at least T (never earlier); and on an
endpoint whose first successful attempt happens at elapsed k < T it
returns Healthy (true) at exactly that attempt. -/
theorem c6_prober_timeout_bounds :
    (∀ att T, (∀ k, k < T → att k ≠ Attempt.success) →
        (wait_for_server att T).1 = false ∧
        T ≤ (wait_for_server att T).2 ∧ (wait_for_server att T).2 < T + 1)
    ∧ (∀ att T, (wait_for_server att T).1 = false →
        T ≤ (wait_for_server att T).2)
    ∧ (∀ att T k, k < T → att k = Attempt.success →
        (∀ j, j < k → att j ≠ Attempt.success) →
        wait_for_server att T = (true, k)) := by
  refine ⟨?_, ?_, ?_⟩
  · intro att T h
    rw [wait_for_server_never att T h]
    exact ⟨rfl, le_refl T, by omega⟩
  · intro att T h
    have h0 : (waitLoop att T 0).1 = false := by
      simpa [wait_for_server] using h
    have := waitLoop_false_elapsed att T 0 h0
    simp [wait_for_server, this]
  · exact wait_for_server_first

/-- C6 witness: a never-responding endpoint with timeout 5 yields
TimedOut at elapsed 5 ∈ [5, 6); an endpoint that first responds at
elapsed 2 with timeout 7 yields Healthy at elapsed 2. -/
theorem c6_witness :
    (wait_for_server (fun _ => Attempt.connError) 5).1 = false ∧
    5 ≤ (wait_for_server (fun _ => Attempt.connError) 5).2 ∧
    (wait_for_server (fun _ => Attempt.connError) 5).2 < 6 ∧
    wait_for_server (fun n => if n < 2 then Attempt.connError else Attempt.success) 7
      = (true, 2) := by
  have h1 := c6_prober_timeout_bounds.1 (fun _ => Attempt.connError) 5
    (fun k _ h => Attempt.noConfusion h)
  have h2 := c6_prober_timeout_bounds.2.2
    (fun n => if n < 2 then Attempt.connError else Attempt.success) 7 2
    (by decide) (by decide)
    (fun j hj h => by
      have h' : (if j < 2 then Attempt.connError else Attempt.success)
          = Attempt.success := h
      rw [if_pos hj] at h'
      exact Attempt.noConfusion h')
  exact ⟨h1.1, h1.2.1, h1.2.2, h2⟩

/-- C1 counterexample: on POSIX, with a backend child (pid 1) that ignores
SIGTERM (so `wait(timeout=5)` raises `TimeoutExpired`) and a live frontend
child (pid 2), `cleanup` catches the backend error but never attempts to
kill the frontend: the whole trace is `[sigterm 1]`, with no kill event
for pid 2, contradicting the claim that an error on one kill does not
prevent the kill attempt on the remaining process. -/
theorem c1_counterexample :
    cleanup false
        ⟨some ⟨1, ProcState.running, none, false⟩,
         some ⟨2, ProcState.running, none, true⟩⟩
      = ([Ev.sigterm 1],
         ⟨some ⟨1, ProcState.running, none, false⟩,
          some ⟨2, ProcState.running, none, true⟩⟩,
         some (CleanupError.timeoutExpired 1)) ∧
    Ev.sigterm 2 ∉
      (cleanup false
        ⟨some ⟨1, ProcState.running, none, false⟩,
         some ⟨2, ProcState.running, none, true⟩⟩).1 ∧
    Ev.taskkillF 2 ∉
      (cleanup false
        ⟨some ⟨1, ProcState.running, none, false⟩,
         some ⟨2, ProcState.running, none, true⟩⟩).1 := by
  refine ⟨by decide, by decide, by decide⟩

/-- C1 (amended): `cleanup` attempts the backend kill first and the
frontend kill second inside a single try block; an exception raised by an
individual kill is caught and logged, never propagated (`cleanup` always
returns, reporting the caught error), BUT an exception raised while
killing the backend aborts the pass: the frontend kill attempt is skipped
and the trace consists of the backend kill events only.  The frontend
kill is attempted exactly when the backend kill raised no exception. -/
theorem c1_amended_backend_error_skips_frontend :
    (∀ w s p e, s.backend_process = some p →
        (cleanupProc w p).2.2 = some e →
        (cleanup w s).1 = (cleanupProc w p).1 ∧ (cleanup w s).2.2 = some e)
    ∧ (∀ w s p q, s.backend_process = some p → s.frontend_process = some q →
        (cleanupProc w p).2.2 = none →
        (cleanup w s).1 = (cleanupProc w p).1 ++ (cleanupProc w q).1) := by
  constructor
  · intro w s p e hb herr
    rcases s with ⟨bp, fp⟩
    simp at hb
    subst hb
    rcases hcp : cleanupProc w p with ⟨ev, p', e1⟩
    rw [hcp] at herr
    simp at herr
    subst herr
    simp [cleanup, hcp]
  · intro w s p q hb hf hok
    rcases s with ⟨bp, fp⟩
    simp at hb hf
    subst hb
    subst hf
    rcases hcp : cleanupProc w p with ⟨ev, p', e1⟩
    rw [hcp] at hok
    simp at hok
    subst hok
    rcases hcq : cleanupProc w q with ⟨ev2, q', e2⟩
    simp [cleanup, hcp, hcq]

/-- C1 witness: on the counterexample state the amended theorem yields the
trace `[sigterm 1]` with the caught `TimeoutExpired`; with a backend that
does exit on SIGTERM, both kill attempts appear in the trace. -/
theorem c1_witness :
    (cleanup false
        ⟨some ⟨1, ProcState.running, none, false⟩,
         some ⟨2, ProcState.running, none, true⟩⟩).1
      = (cleanupProc false (⟨1, ProcState.running, none, false⟩ : ProcHandle)).1 ∧
    (cleanup false
        ⟨some ⟨1, ProcState.running, none, false⟩,
         some ⟨2, ProcState.running, none, true⟩⟩).2.2
      = some (CleanupError.timeoutExpired 1) ∧
    (cleanup false
        ⟨some ⟨1, ProcState.running, none, true⟩,
         some ⟨2, ProcState.running, none, true⟩⟩).1
      = (cleanupProc false (⟨1, ProcState.running, none, true⟩ : ProcHandle)).1 ++
        (cleanupProc false (⟨2, ProcState.running, none, true⟩ : ProcHandle)).1 := by
  refine ⟨?_, ?_, ?_⟩
  · exact (c1_amended_backend_error_skips_frontend.1 false _
      ⟨1, ProcState.running, none, false⟩ (CleanupError.timeoutExpired 1) rfl (by decide)).1
  · exact (c1_amended_backend_error_skips_frontend.1 false _
      ⟨1, ProcState.running, none, false⟩ (CleanupError.timeoutExpired 1) rfl (by decide)).2
  · exact c1_amended_backend_error_skips_frontend.2 false _
      ⟨1, ProcState.running, none, true⟩ ⟨2, ProcState.running, none, true⟩
      rfl rfl (by decide)

/-- C4 counterexample: on win32, a state in which both tracked processes
have already stopped (e.g. after a prior completed cleanup) still gets a
fresh `taskkill` issued for the backend pid on a second `cleanup` call;
that `taskkill` fails (`check=True` raises `CalledProcessError`, caught
and logged), so the second invocation is neither free of kill attempts nor
free of errors, contradicting the unqualified idempotence claim. -/
theorem c4_counterexample :
    (cleanup true
        ⟨some ⟨1, ProcState.exited 0, some 0, true⟩,
         some ⟨2, ProcState.exited 0, some 0, true⟩⟩).1
      = [Ev.taskkillF 1] ∧
    (cleanup true
        ⟨some ⟨1, ProcState.exited 0, some 0, true⟩,
         some ⟨2, ProcState.exited 0, some 0, true⟩⟩).2.2
      = some (CleanupError.calledProcessError 1) := by
  refine ⟨by decide, by decide⟩

/-- C4 (amended): on POSIX-like platforms `cleanup` is idempotent: on any
state whose tracked processes have all stopped — in particular the state
left by a prior completed (error-free) cleanup, whose tracked processes
have indeed all stopped — a further `cleanup` delivers no kill signal at
all, raises no error, and reports successful shutdown.  (On win32 a second
cleanup is not a no-op: it re-issues a `taskkill` for the first tracked
process; that `taskkill` fails and the `CalledProcessError` is caught and
logged, aborting the pass before any further `taskkill`, as the
counterexample trace `[taskkillF 1]` shows.) -/
theorem c4_amended_posix_idempotent :
    (∀ s, allStopped s = true →
        (cleanup false s).1 = [] ∧ (cleanup false s).2.2 = none)
    ∧ (∀ s, wfSt s → (cleanup false s).2.2 = none →
        allStopped (cleanup false s).2.1 = true) := by
  constructor
  · intro s hs
    rcases s with ⟨bp, fp⟩
    cases bp with
    | none =>
      cases fp with
      | none => exact ⟨rfl, rfl⟩
      | some q =>
        have hq : procExited q = true := by
          simpa [allStopped] using hs
        rcases hcq : cleanupProc false q with ⟨ev2, q', e2⟩
        have := cleanupProc_posix_exited q hq
        rw [hcq] at this
        simp at this
        rcases this with ⟨h1, h2⟩
        subst h1
        subst h2
        exact ⟨by simp [cleanup, hcq], by simp [cleanup, hcq]⟩
    | some p =>
      have hp : procExited p = true := by
        have := hs
        simp [allStopped] at this
        exact this.1
      rcases hcp : cleanupProc false p with ⟨ev, p', e1⟩
      have hpe := cleanupProc_posix_exited p hp
      rw [hcp] at hpe
      simp at hpe
      rcases hpe with ⟨h1, h2⟩
      subst h1
      subst h2
      cases fp with
      | none => exact ⟨by simp [cleanup, hcp], by simp [cleanup, hcp]⟩
      | some q =>
        have hq : procExited q = true := by
          have := hs
          simp [allStopped] at this
          exact this.2
        rcases hcq : cleanupProc false q with ⟨ev2, q', e2⟩
        have hqe := cleanupProc_posix_exited q hq
        rw [hcq] at hqe
        simp at hqe
        rcases hqe with ⟨h1, h2⟩
        subst h1
        subst h2
        exact ⟨by simp [cleanup, hcp, hcq], by simp [cleanup, hcp, hcq]⟩
  · intro s hwf herr
    rcases s with ⟨bp, fp⟩
    cases bp with
    | none =>
      cases fp with
      | none => rfl
      | some q =>
        rcases hcq : cleanupProc false q with ⟨ev2, q', e2⟩
        have h2 : e2 = none := by
          have := herr
          simp [cleanup, hcq] at this
          exact this
        subst h2
        have hq := cleanupProc_posix_ok_exited q (hwf.2 q rfl) (by rw [hcq])
        rw [hcq] at hq
        simp [cleanup, hcq, allStopped, hq]
    | some p =>
      rcases hcp : cleanupProc false p with ⟨ev, p', e1⟩
      cases e1 with
      | some err =>
        have : (cleanup false ⟨some p, fp⟩).2.2 = some err := by
          simp [cleanup, hcp]
        rw [herr] at this
        exact Option.noConfusion this
      | none =>
        have hp := cleanupProc_posix_ok_exited p (hwf.1 p rfl) (by rw [hcp])
        rw [hcp] at hp
        cases fp with
        | none => simp [cleanup, hcp, allStopped, hp]
        | some q =>
          rcases hcq : cleanupProc false q with ⟨ev2, q', e2⟩
          have h2 : e2 = none := by
            have := herr
            simp [cleanup, hcp, hcq] at this
            exact this
          subst h2
          have hq := cleanupProc_posix_ok_exited q (hwf.2 q rfl) (by rw [hcq])
          rw [hcq] at hq
          simp [cleanup, hcp, hcq, allStopped, hp, hq]

/-- C4 witness: a POSIX state with one stopped, reaped backend process:
cleaning it again delivers nothing, errs nowhere, and the resulting state
is still all-stopped. -/
theorem c4_witness :
    (cleanup false ⟨some ⟨1, ProcState.exited 0, some 0, true⟩, none⟩).1 = [] ∧
    (cleanup false ⟨some ⟨1, ProcState.exited 0, some 0, true⟩, none⟩).2.2 = none ∧
    allStopped (cleanup false ⟨some ⟨1, ProcState.exited 0, some 0, true⟩, none⟩).2.1
      = true := by
  refine ⟨(c4_amended_posix_idempotent.1 _ (by decide)).1,
    (c4_amended_posix_idempotent.1 _ (by decide)).2,
    c4_amended_posix_idempotent.2 ⟨some ⟨1, ProcState.exited 0, some 0, true⟩, none⟩
      ⟨?_, ?_⟩ (by decide)⟩
  · intro p hp
    cases hp
    intro c hc
    cases hc
    rfl
  · intro q hq
    cases hq

/-- C5 counterexample: on POSIX, a tracked backend (pid 7) that is still
alive and does not exit within the 5-second window: `cleanup` sends
SIGTERM and then, instead of escalating to a forced kill as the claim
requires, raises (and catches) `TimeoutExpired` — the whole trace is
exactly `[sigterm 7]`, containing no forced-kill event. -/
theorem c5_counterexample :
    cleanup false ⟨some ⟨7, ProcState.running, none, false⟩, none⟩
      = ([Ev.sigterm 7],
         ⟨some ⟨7, ProcState.running, none, false⟩, none⟩,
         some (CleanupError.timeoutExpired 7)) := by
  decide

/-- C5 (amended): on POSIX-like platforms, for every tracked process still
alive (and unreaped) at shutdown, `cleanup` sends a graceful termination
request (SIGTERM) and waits up to 5 seconds; if the process exits within
the window the kill completes without error; if it does not, `cleanup`
does NOT escalate to a forced kill — the `wait(timeout=5)` raises
`TimeoutExpired`, which is caught and logged (aborting the rest of the
pass).  No forced kill (SIGKILL) is ever issued by `cleanup`. -/
theorem c5_amended_no_forced_kill :
    (∀ p, p.returncode = none → p.os = ProcState.running →
        (cleanupProc false p).1 = [Ev.sigterm p.pid] ∧
        (p.exitsOnTerm = true →
          (cleanupProc false p).2.2 = none ∧
          procExited (cleanupProc false p).2.1 = true) ∧
        (p.exitsOnTerm = false →
          (cleanupProc false p).2.2 = some (CleanupError.timeoutExpired p.pid)))
    ∧ (∀ w s pid, Ev.sigkill pid ∉ (cleanup w s).1) := by
  constructor
  · intro p h1 h2
    rcases p with ⟨pp, os, rc, et⟩
    simp at h1 h2
    subst h1
    subst h2
    cases et <;> simp [cleanupProc, procExited]
  · exact cleanup_no_sigkill

/-- C5 witness: pid 7 alive and SIGTERM-deaf gets exactly one SIGTERM and a
caught `TimeoutExpired`; pid 8 alive and cooperative exits without error;
no SIGKILL appears in the cleanup trace of the counterexample state. -/
theorem c5_witness :
    (cleanupProc false (⟨7, ProcState.running, none, false⟩ : ProcHandle)).1
      = [Ev.sigterm 7] ∧
    (cleanupProc false (⟨7, ProcState.running, none, false⟩ : ProcHandle)).2.2
      = some (CleanupError.timeoutExpired 7) ∧
    (cleanupProc false (⟨8, ProcState.running, none, true⟩ : ProcHandle)).2.2
      = none ∧
    Ev.sigkill 7 ∉
      (cleanup false ⟨some ⟨7, ProcState.running, none, false⟩, none⟩).1 := by
  refine ⟨(c5_amended_no_forced_kill.1 _ rfl rfl).1,
    (c5_amended_no_forced_kill.1 _ rfl rfl).2.2 rfl,
    ((c5_amended_no_forced_kill.1 _ rfl rfl).2.1 rfl).1,
    c5_amended_no_forced_kill.2 false _ 7⟩

/-- C10: invoking `cleanup` before any service process has been started
(both `backend_process` and `frontend_process` are `None`) performs no
kill operation, raises no error, and reports successful shutdown — on
either platform. -/
theorem c10_cleanup_no_processes :
    cleanup true ⟨none, none⟩ = ([], ⟨none, none⟩, none) ∧
    cleanup false ⟨none, none⟩ = ([], ⟨none, none⟩, none) := by
  refine ⟨by decide, by decide⟩

/-- C2: in any run in which `start_backend` reports not-ready (manifest
missing, install failure, or backend health-check failure), the frontend
install/start sequence is never invoked: the whole event trace of the run
contains no frontend install and no frontend process start. -/
theorem c2_no_frontend_unless_backend_healthy (env : Env)
    (h : (start_backend env ⟨none, none⟩).2.1 = false) :
    ∀ e ∈ (runApp env).1,
      e ≠ Ev.install Service.frontend ∧ e ≠ Ev.spawn Service.frontend := by
  intro e he
  have hsplit : e ∈ (start_backend env ⟨none, none⟩).1 ∨
      e ∈ (cleanup env.win32 (start_backend env ⟨none, none⟩).2.2).1 := by
    unfold runApp at he
    by_cases hd : env.depsOk = false
    · simp [hd] at he
    · simp only [if_neg hd, h, if_pos] at he
      simpa using he
  rcases hsplit with h1 | h2
  · rcases start_backend_events env _ e h1 with hev | hev | hev <;> subst hev <;>
      exact ⟨by decide, by decide⟩
  · have hk := cleanup_kills env.win32 _ e h2
    constructor <;> intro hEq <;> subst hEq <;> simp [isKillEv] at hk

/-- C2 witness: an environment whose backend never becomes healthy
(connection refused forever): `start_backend` reports not-ready, the run
trace contains the backend SIGTERM from cleanup, and that event is neither
a frontend install nor a frontend spawn. -/
theorem c2_witness :
    (start_backend
        ⟨true, true, true, true, fun _ => Attempt.connError, fun _ => Attempt.connError,
         false, 1, 2, true, true⟩ ⟨none, none⟩).2.1 = false ∧
    Ev.sigterm 1 ∈
      (runApp ⟨true, true, true, true, fun _ => Attempt.connError, fun _ => Attempt.connError,
        false, 1, 2, true, true⟩).1 ∧
    Ev.sigterm 1 ≠ Ev.install Service.frontend ∧
    Ev.sigterm 1 ≠ Ev.spawn Service.frontend := by
  refine ⟨by decide, by decide, ?_⟩
  exact c2_no_frontend_unless_backend_healthy
    ⟨true, true, true, true, fun _ => Attempt.connError, fun _ => Attempt.connError,
     false, 1, 2, true, true⟩ (by decide) (Ev.sigterm 1) (by decide)

/-- C7: if `backend/package.json` is absent, `start_backend` fails
immediately: it reports not-ready having emitted no event at all — no
install command, no process spawn — and leaves the state untouched. -/
theorem c7_missing_manifest_aborts (env : Env) (s : AppSt)
    (h : env.backendManifest = false) :
    start_backend env s = ([], false, s) := by
  simp [start_backend, h]

/-- C7 witness: a concrete environment without `backend/package.json`. -/
theorem c7_witness :
    start_backend
        ⟨true, false, true, true, fun _ => Attempt.connError, fun _ => Attempt.connError,
         false, 1, 2, true, true⟩ ⟨none, none⟩
      = ([], false, ⟨none, none⟩) :=
  c7_missing_manifest_aborts
    ⟨true, false, true, true, fun _ => Attempt.connError, fun _ => Attempt.connError,
     false, 1, 2, true, true⟩ ⟨none, none⟩ rfl

/-- C8: the launcher reports ready=true only if the prober returned
Healthy; when the process was started but the prober timed out, it reports
ready=false while the started, still-running process stays recorded in
`backend_process` / `frontend_process`; the launcher emits no kill event
at all; and the subsequent supervisor POSIX cleanup of the resulting
state does deliver a termination signal to the recorded backend pid. -/
theorem c8_launcher_keeps_process_for_cleanup :
    (∀ env s, (start_backend env s).2.1 = true →
        (wait_for_server env.backendAtt 15).1 = true)
    ∧ (∀ env s, (start_frontend env s).2.1 = true →
        (wait_for_server env.frontendAtt 30).1 = true)
    ∧ (∀ env s, env.backendManifest = true → env.backendInstall = true →
        (wait_for_server env.backendAtt 15).1 = false →
        (start_backend env s).2.1 = false ∧
        (start_backend env s).2.2.backend_process = some (spawnBackend env) ∧
        (spawnBackend env).os = ProcState.running)
    ∧ (∀ env s, env.frontendInstall = true →
        (wait_for_server env.frontendAtt 30).1 = false →
        (start_frontend env s).2.1 = false ∧
        (start_frontend env s).2.2.frontend_process = some (spawnFrontend env) ∧
        (spawnFrontend env).os = ProcState.running)
    ∧ (∀ env s e, e ∈ (start_backend env s).1 → isKillEv e = false)
    ∧ (∀ env s e, e ∈ (start_frontend env s).1 → isKillEv e = false)
    ∧ (∀ env s, env.backendManifest = true → env.backendInstall = true →
        Ev.sigterm env.backendPid ∈
          (cleanup false (start_backend env s).2.2).1) := by
  refine ⟨start_backend_ready, start_frontend_ready, ?_, ?_,
    start_backend_no_kill, start_frontend_no_kill, ?_⟩
  · intro env s hm hi hw
    rw [start_backend_started env s hm hi]
    exact ⟨hw, rfl, rfl⟩
  · intro env s hi hw
    rw [start_frontend_started env s hi]
    exact ⟨hw, rfl, rfl⟩
  · intro env s hm hi
    rw [start_backend_started env s hm hi]
    refine cleanup_backend_events_mem false _ (spawnBackend env) rfl
      (Ev.sigterm env.backendPid) ?_
    cases het : env.backendExitsOnTerm <;>
      simp [cleanupProc, spawnBackend, het]

/-- C8 witness: with a backend that never answers (timeout after 15 s),
the launcher reports not-ready, the spawned pid-1 handle stays tracked,
the backend install event is not a kill, and the subsequent cleanup sends
SIGTERM to pid 1; with an immediately-healthy backend the launcher reports
ready and the prober indeed returned Healthy. -/
theorem c8_witness :
    (start_backend
        ⟨true, true, true, true, fun _ => Attempt.connError, fun _ => Attempt.connError,
         false, 1, 2, true, true⟩ ⟨none, none⟩).2.1 = false ∧
    (start_backend
        ⟨true, true, true, true, fun _ => Attempt.connError, fun _ => Attempt.connError,
         false, 1, 2, true, true⟩ ⟨none, none⟩).2.2.backend_process
      = some (spawnBackend
          ⟨true, true, true, true, fun _ => Attempt.connError, fun _ => Attempt.connError,
           false, 1, 2, true, true⟩) ∧
    Ev.sigterm 1 ∈
      (cleanup false
        (start_backend
          ⟨true, true, true, true, fun _ => Attempt.connError, fun _ => Attempt.connError,
           false, 1, 2, true, true⟩ ⟨none, none⟩).2.2).1 ∧
    isKillEv (Ev.install Service.backend) = false ∧
    (wait_for_server
        (⟨true, true, true, true, fun _ => Attempt.success, fun _ => Attempt.connError,
          false, 1, 2, true, true⟩ : Env).backendAtt 15).1 = true := by
  refine ⟨?_, ?_, ?_, ?_, ?_⟩
  · exact (c8_launcher_keeps_process_for_cleanup.2.2.1 _ ⟨none, none⟩ rfl rfl (by decide)).1
  · exact (c8_launcher_keeps_process_for_cleanup.2.2.1 _ ⟨none, none⟩ rfl rfl (by decide)).2.1
  · exact c8_launcher_keeps_process_for_cleanup.2.2.2.2.2.2 _ ⟨none, none⟩ rfl rfl
  · exact c8_launcher_keeps_process_for_cleanup.2.2.2.2.1
      ⟨true, true, true, true, fun _ => Attempt.connError, fun _ => Attempt.connError,
       false, 1, 2, true, true⟩ ⟨none, none⟩ (Ev.install Service.backend) (by decide)
  · exact c8_launcher_keeps_process_for_cleanup.1
      ⟨true, true, true, true, fun _ => Attempt.success, fun _ => Attempt.connError,
       false, 1, 2, true, true⟩ ⟨none, none⟩ (by decide)

/-- C9: `ensure_directories` never raises; afterwards `data/`, `logs/` and
`exports/` all exist under the backend directory; every pre-existing path
is left in place; a directory is created exactly when it was absent; and
the operation is idempotent — run on its own result it creates nothing and
raises nothing. -/
theorem c9_ensure_directories_idempotent :
    (∀ fs e, ensure_directories fs ≠ Except.error e)
    ∧ (∀ fs fs2 created, ensure_directories fs = Except.ok (fs2, created) →
        (∀ d, d ∈ requiredDirs → d ∈ fs2) ∧
        (∀ p, p ∈ fs → p ∈ fs2) ∧
        (∀ d, d ∈ created ↔ (d ∈ requiredDirs ∧ d ∉ fs)) ∧
        ensure_directories fs2 = Except.ok (fs2, [])) := by
  constructor
  · intro fs e h
    rcases ensureLoop_ok fs requiredDirs with ⟨fs2, created, hok⟩
    rw [ensure_directories, hok] at h
    exact Except.noConfusion h
  · intro fs fs2 created h
    have hm := ensureLoop_mem fs requiredDirs fs2 created h
    exact ⟨hm.1, hm.2.1, hm.2.2, ensureLoop_all_present fs2 requiredDirs hm.1⟩

/-- C9 witness: starting from a filesystem containing only `logs`,
`ensure_directories` succeeds, creating exactly `data` and `exports`,
keeping `logs`, and running it again on the result creates nothing. -/
theorem c9_witness :
    ensure_directories [(("logs") : String)]
      = Except.ok ([(("exports") : String), (("data") : String), (("logs") : String)],
          [(("data") : String), (("exports") : String)]) ∧
    (("data") : String) ∈ [(("exports") : String), (("data") : String), (("logs") : String)] ∧
    (("logs") : String) ∈ [(("exports") : String), (("data") : String), (("logs") : String)] ∧
    ((("data") : String) ∈ [(("data") : String), (("exports") : String)] ↔
      ((("data") : String) ∈ requiredDirs ∧ (("data") : String) ∉ [(("logs") : String)])) ∧
    ensure_directories [(("exports") : String), (("data") : String), (("logs") : String)]
      = Except.ok ([(("exports") : String), (("data") : String), (("logs") : String)], []) := by
  have h := c9_ensure_directories_idempotent.2 [(("logs") : String)]
    [(("exports") : String), (("data") : String), (("logs") : String)]
    [(("data") : String), (("exports") : String)] rfl
  refine ⟨rfl, h.1 _ (by decide), h.2.1 _ (by decide), h.2.2.1 _, h.2.2.2⟩

end TriStarFitness
